import Mathlib

/-!
Shallow embedding of the REPE C++ server (`src/cpp_server/repe_server.cpp`).

The server reads REPE frames (48-byte header, query string, body) from a TCP
channel, dispatches to a small math service, and writes one response frame per
non-notify request.  We embed the pure protocol logic:

* `Header`/`Message` mirror `glz::repe::header` / `glz::repe::message`
  (field defaults are the C++ default member initializers).
* C++ `double` is modelled as the exact rational type `Rat`: no claim under
  consideration depends on IEEE-754 rounding, only on control flow and on the
  exceptional case `denominator == 0.0`, which is exact.
* The glaze payload codec (`glz::read_json`, `glz::read_beve`,
  `glz::write_json`, `glz::write_beve`) is an external library, not part of
  this repository's source.  Modelled from the spec: per spec §4.3 the codec
  decodes formats 1 (binary/BEVE) and 2 (JSON) into typed values and fails on
  other tags, and encoding is injective per type and format.  We model an
  encoded payload as a constructor tagging the typed value with the
  serialization used; decode is the partial inverse.  Serialized byte counts
  are not fixed by the spec (its §9 leaves the exact layout open), so
  `Bytes.byteSize` uses a fixed canonical size for encoded payloads; no claim
  depends on that choice.  Text bodies use their real UTF-8 byte count.
* Blocking socket reads are modelled by a `ReadEvent` describing what the
  channel delivered for one iteration of `handle_client`'s loop, and the loop
  body becomes `handle_client_step : ReadEvent → StepOut`, where `StepOut`
  records the response computed by `process_request` (if dispatch happened),
  the frame actually written, and whether the worker `break`s out of the loop
  (closing the connection).
-/

namespace REPE

/-- C++ `double`, modelled as an exact rational (see file comment). -/
abbrev Dbl := Rat

/-- The subset of `glz::error_code` values used by the server.
`ok` is `glz::error_code::none` (numeric 0, the default). -/
inductive ErrorCode
  | ok
  | version_mismatch
  | parse_error
  | method_not_found
  | invalid_body
deriving DecidableEq, Repr

/-- One value of the heterogeneous status map:
`std::variant<std::string, double, int>`. -/
inductive StatusVal
  | s (v : String)
  | d (v : Dbl)
  | i (v : Int)
deriving DecidableEq, Repr

/-- `std::map<std::string, double>`, as a key-ordered association list. -/
abbrev ParamsD := List (String × Dbl)

/-- `std::map<std::string, std::string>`. -/
abbrev ParamsS := List (String × String)

/-- `std::map<std::string, std::variant<std::string, double, int>>`. -/
abbrev StatusMap := List (String × StatusVal)

/-- Modelled from the spec: a body byte sequence.  Plain text (raw / UTF-8 /
error messages) carries its characters; an encoded payload is tagged with the
typed value it serializes and the format used (spec §4.3), decode being the
partial inverse of encode. -/
inductive Bytes
  | text (s : String)
  | beveD (m : ParamsD)
  | jsonD (m : ParamsD)
  | beveS (m : ParamsS)
  | jsonS (m : ParamsS)
  | beveStatus (m : StatusMap)
  | jsonStatus (m : StatusMap)
deriving DecidableEq, Repr

/-- `sizeof(glz::repe::header)` = 48 bytes. -/
def headerSize : Nat := 48

/-- Modelled from the spec: byte count of one serialized `(string, double)`
entry; the spec does not fix serialized layouts, so we charge the key's UTF-8
bytes plus 8 bytes for the double. -/
def pairSizeD (p : String × Dbl) : Nat := p.1.utf8ByteSize + 8

/-- Modelled from the spec: byte count of one serialized `(string, string)`
entry. -/
def pairSizeS (p : String × String) : Nat := p.1.utf8ByteSize + p.2.utf8ByteSize

/-- Modelled from the spec: byte count of one serialized status entry. -/
def pairSizeV (p : String × StatusVal) : Nat :=
  p.1.utf8ByteSize +
    match p.2 with
    | .s v => v.utf8ByteSize
    | .d _ => 8
    | .i _ => 8

/-- Modelled from the spec: byte count of a body (`response.body.size()` /
`request.body.size()` in the C++).  Text is its true UTF-8 byte count; the
canonical sizes of encoded payloads are a modelling choice no claim depends
on. -/
def Bytes.byteSize : Bytes → Nat
  | .text s => s.utf8ByteSize
  | .beveD m => m.foldl (fun n p => n + pairSizeD p) 2
  | .jsonD m => m.foldl (fun n p => n + pairSizeD p) 2
  | .beveS m => m.foldl (fun n p => n + pairSizeS p) 2
  | .jsonS m => m.foldl (fun n p => n + pairSizeS p) 2
  | .beveStatus m => m.foldl (fun n p => n + pairSizeV p) 2
  | .jsonStatus m => m.foldl (fun n p => n + pairSizeV p) 2

/-- `glz::repe::header` (48 bytes, see the glaze REPE layout).  Field defaults
are the C++ default member initializers; widths (u64/u16/u8/u32) are noted but
modelled as `Nat` since no claim involves overflow.  `notify` is a `uint8_t`
tested for truthiness, `ec` a `uint32_t` holding a `glz::error_code`. -/
structure Header where
  length : Nat := 0
  spec : Nat := 0x1507
  version : Nat := 1
  notify : Nat := 0
  reserved : Nat := 0
  id : Nat := 0
  query_length : Nat := 0
  body_length : Nat := 0
  query_format : Nat := 0
  body_format : Nat := 0
  ec : ErrorCode := .ok
deriving DecidableEq, Repr

/-- `glz::repe::message`: header, query string, body bytes.  A
default-constructed message has an empty query and empty body. -/
structure Message where
  header : Header := {}
  query : String := ""
  body : Bytes := .text ""
deriving DecidableEq, Repr

/-- `std::map<K, V>::operator[]` for `V = double`: a missing key
default-constructs the value `0.0`. -/
def mapGetD (m : ParamsD) (k : String) : Dbl := (List.lookup k m).getD 0

/-- `std::map<K, V>::operator[]` for `V = std::string`: a missing key
default-constructs the empty string. -/
def mapGetS (m : ParamsS) (k : String) : String := (List.lookup k m).getD ""

namespace math_service

/-- `math_service::add`. -/
def add (a b : Dbl) : Dbl := a + b

/-- `math_service::multiply`. -/
def multiply (x y : Dbl) : Dbl := x * y

/-- `math_service::divide`: the C++ throws `std::invalid_argument("Division by
zero")` when the denominator is zero; the throw is modelled as `Except.error`
(caught by the dispatcher). -/
def divide (numerator denominator : Dbl) : Except String Dbl :=
  if denominator = 0 then .error "Division by zero" else .ok (numerator / denominator)

/-- `math_service::echo`. -/
def echo (message : String) : String := "Echo: " ++ message

/-- `math_service::status`: a `std::map` iterates in key order, so the literal
`{status, version, uptime, connections}` is stored sorted by key. -/
def status : StatusMap :=
  [("connections", .i 1), ("status", .s "online"), ("uptime", .d 100), ("version", .s "1.0.0")]

end math_service

/-- `glz::read_beve<std::map<std::string, double>>`: succeeds exactly on a
BEVE-serialized double map (modelled from the spec, see `Bytes`). -/
def read_beveD : Bytes → Option ParamsD
  | .beveD m => some m
  | _ => none

/-- `glz::read_json<std::map<std::string, double>>`. -/
def read_jsonD : Bytes → Option ParamsD
  | .jsonD m => some m
  | _ => none

/-- `glz::read_beve<std::map<std::string, std::string>>`. -/
def read_beveS : Bytes → Option ParamsS
  | .beveS m => some m
  | _ => none

/-- `glz::read_json<std::map<std::string, std::string>>`. -/
def read_jsonS : Bytes → Option ParamsS
  | .jsonS m => some m
  | _ => none

/-- `decode_params<std::map<std::string, double>>` (repe_server.cpp lines
228-242): format 1 decodes as BEVE, format 2 as JSON, anything else yields
`nullopt`. -/
def decode_paramsD (request : Message) : Option ParamsD :=
  if request.header.body_format = 1 then read_beveD request.body
  else if request.header.body_format = 2 then read_jsonD request.body
  else none

/-- `decode_params<std::map<std::string, std::string>>`. -/
def decode_paramsS (request : Message) : Option ParamsS :=
  if request.header.body_format = 1 then read_beveS request.body
  else if request.header.body_format = 2 then read_jsonS request.body
  else none

/-- `encode_response<std::map<std::string, double>>` (lines 244-254): format 1
writes BEVE and stamps tag 1; every other format falls through to the `else`
branch, writing JSON and stamping tag 2. -/
def encode_responseD (data : ParamsD) (response : Message) (format : Nat) : Message :=
  if format = 1 then
    { response with body := .beveD data, header := { response.header with body_format := 1 } }
  else
    { response with body := .jsonD data, header := { response.header with body_format := 2 } }

/-- `encode_response<std::map<std::string, std::string>>`. -/
def encode_responseS (data : ParamsS) (response : Message) (format : Nat) : Message :=
  if format = 1 then
    { response with body := .beveS data, header := { response.header with body_format := 1 } }
  else
    { response with body := .jsonS data, header := { response.header with body_format := 2 } }

/-- `encode_response` at the status map type. -/
def encode_responseStatus (data : StatusMap) (response : Message) (format : Nat) : Message :=
  if format = 1 then
    { response with body := .beveStatus data, header := { response.header with body_format := 1 } }
  else
    { response with body := .jsonStatus data, header := { response.header with body_format := 2 } }

/-- Lines 264-267: strip a single leading slash from the query
(`if (!method.empty() && method[0] == '/') method = method.substr(1)`). -/
def stripMethod (query : String) : String :=
  if query ≠ "" ∧ query.front = '/' then query.drop 1 else query

/-- `process_request` (lines 256-341).  The `response` argument in the C++ is
the default-constructed message from `handle_client`'s loop body, so the model
starts from `{}`; the final step is the length recomputation of lines
337-340. -/
def process_request (request : Message) : Message :=
  let response : Message :=
    { header := { ({} : Header) with id := request.header.id, spec := 0x1507, version := 1 }
      query := request.query : Message }
  let method := stripMethod request.query
  let response_format := request.header.body_format
  let response :=
    if method = "add" then
      match decode_paramsD request with
      | some params =>
        let result := math_service.add (mapGetD params "a") (mapGetD params "b")
        encode_responseD [("result", result)] response response_format
      | none =>
        { response with
            header := { response.header with ec := .parse_error, body_format := 3 }
            body := .text "Invalid parameters for add" }
    else if method = "multiply" then
      match decode_paramsD request with
      | some params =>
        let result := math_service.multiply (mapGetD params "x") (mapGetD params "y")
        encode_responseD [("result", result)] response response_format
      | none =>
        { response with
            header := { response.header with ec := .parse_error, body_format := 3 }
            body := .text "Invalid parameters for multiply" }
    else if method = "divide" then
      match decode_paramsD request with
      | some params =>
        match math_service.divide (mapGetD params "numerator") (mapGetD params "denominator") with
        | .ok result => encode_responseD [("result", result)] response response_format
        | .error e =>
          { response with
              header := { response.header with ec := .invalid_body, body_format := 3 }
              body := .text e }
      | none =>
        { response with
            header := { response.header with ec := .parse_error, body_format := 3 }
            body := .text "Invalid parameters for divide" }
    else if method = "echo" then
      match decode_paramsS request with
      | some params =>
        let result := math_service.echo (mapGetS params "message")
        encode_responseS [("result", result)] response response_format
      | none =>
        { response with
            header := { response.header with ec := .parse_error, body_format := 3 }
            body := .text "Invalid parameters for echo" }
    else if method = "status" then
      encode_responseStatus math_service.status response response_format
    else
      { response with
          header := { response.header with ec := .method_not_found, body_format := 3 }
          body := .text ("Method not found: " ++ method) }
  { response with header := { response.header with
      query_length := response.query.utf8ByteSize
      body_length := response.body.byteSize
      length := headerSize + response.query.utf8ByteSize + response.body.byteSize } }

/-- What the channel delivered for one iteration of `handle_client`'s loop:
the header `recv` returned 0/negative (`closed`), a short header read
(`shortHeader`), or a full header `h`; in the last case `queryOk`/`bodyOk` say
whether the exact-length query/body reads (attempted only when the respective
length field is positive) succeed, delivering `q`/`b`. -/
inductive ReadEvent
  | closed
  | shortHeader
  | frame (h : Header) (queryOk : Bool) (q : String) (bodyOk : Bool) (b : Bytes)
deriving DecidableEq, Repr

/-- Observable outcome of one iteration of `handle_client`'s loop:
`dispatched` is the response `process_request` computed (`none` when dispatch
never ran), `sent` the frame handed to `send_response` (`none` when nothing
was written), and `closes` whether the iteration `break`s, after which the
socket is closed. -/
structure StepOut where
  dispatched : Option Message
  sent : Option Message
  closes : Bool
deriving DecidableEq, Repr

/-- The request message assembled by lines 165-201: header from the header
read, query/body filled only when their length fields are positive (otherwise
they keep the default-constructed empty values). -/
def requestOf (h : Header) (q : String) (b : Bytes) : Message :=
  { header := h
    query := (if 0 < h.query_length then q else "")
    body := (if 0 < h.body_length then b else .text "") }

/-- The short-circuit response of lines 176-178: the request header copied
verbatim with only `ec` overwritten, body set to `"Version mismatch"`, query
left empty — the three length fields are NOT recomputed. -/
def versionMismatchResponse (h : Header) : Message :=
  { header := { h with ec := .version_mismatch }, body := .text "Version mismatch" }

/-- One iteration of `handle_client`'s loop (lines 146-221): read header
(break on close/short read), validate magic (break silently), validate version
(send the short-circuit response, then break), read query and body (break on
short read), dispatch via `process_request`, and send the response unless the
request's notify flag is set. -/
def handle_client_step (ev : ReadEvent) : StepOut :=
  match ev with
  | .closed => ⟨none, none, true⟩
  | .shortHeader => ⟨none, none, true⟩
  | .frame h queryOk q bodyOk b =>
    if h.spec ≠ 0x1507 then ⟨none, none, true⟩
    else if h.version ≠ 1 then ⟨none, some (versionMismatchResponse h), true⟩
    else if 0 < h.query_length ∧ queryOk = false then ⟨none, none, true⟩
    else if 0 < h.body_length ∧ bodyOk = false then ⟨none, none, true⟩
    else
      let response := process_request (requestOf h q b)
      if h.notify ≠ 0 then ⟨some response, none, false⟩
      else ⟨some response, some response, false⟩

/-! ## Helper lemmas -/

/-- A successful `decode_params` at the double-map type forces the request's
format tag to be 1 (BEVE) or 2 (JSON): every other tag yields `nullopt`. -/
theorem decode_paramsD_format (req : Message) (params : ParamsD)
    (h : decode_paramsD req = some params) :
    req.header.body_format = 1 ∨ req.header.body_format = 2 := by
  unfold decode_paramsD at h
  by_cases h1 : req.header.body_format = 1
  · exact Or.inl h1
  · by_cases h2 : req.header.body_format = 2
    · exact Or.inr h2
    · simp [h1, h2] at h

/-- Same as `decode_paramsD_format`, at the string-map type. -/
theorem decode_paramsS_format (req : Message) (params : ParamsS)
    (h : decode_paramsS req = some params) :
    req.header.body_format = 1 ∨ req.header.body_format = 2 := by
  unfold decode_paramsS at h
  by_cases h1 : req.header.body_format = 1
  · exact Or.inl h1
  · by_cases h2 : req.header.body_format = 2
    · exact Or.inr h2
    · simp [h1, h2] at h

/-- `List.lookup` misses exactly when the key is absent from the key list. -/
theorem lookup_eq_none_of_not_mem_keys {α β : Type} [BEq α] [LawfulBEq α]
    {k : α} {m : List (α × β)} (h : k ∉ m.map Prod.fst) : List.lookup k m = none := by
  induction m with
  | nil => rfl
  | cons p t ih =>
    obtain ⟨k1, v1⟩ := p
    simp only [List.map_cons, List.mem_cons, not_or] at h
    have hbeq : (k == k1) = false := by simp [h.1]
    simp [List.lookup, hbeq, ih h.2]

/-! ## Claim theorems -/

/-- The request header of the input exhibiting the C1 divergence: a
well-formed empty version-2 request, whose length fields satisfy the framing
invariant (`length` = 48 = headerSize + 0 + 0). -/
def c1Header : Header := { version := 2, length := 48 }

/-- Claim C1 (code bug): the claim says every response frame written to the
channel has `header.length = headerSize + query bytes + body bytes`, the
writer recomputing the three length fields "including the short-circuit
VersionMismatch response".  The code does not: lines 176-178 copy the request
header verbatim (only `ec` is overwritten) and never recompute the lengths,
while the body becomes the 16-byte text "Version mismatch".  On a well-formed
empty version-2 request the sent frame claims total length 48 and body length
0 although its body holds 16 bytes, so `header.length ≠ headerSize +
query bytes + body bytes` (48 ≠ 64); `send_response` even sizes its buffer
from the stale `header.length` (line 345), so the `memcpy` of the body
overruns it. -/
theorem vm_response_length_not_recomputed :
    (handle_client_step (.frame c1Header true "" true (.text ""))).sent =
      some (versionMismatchResponse c1Header) ∧
    (versionMismatchResponse c1Header).query = "" ∧
    (versionMismatchResponse c1Header).body.byteSize = 16 ∧
    (versionMismatchResponse c1Header).header.length = 48 ∧
    (versionMismatchResponse c1Header).header.body_length = 0 ∧
    (versionMismatchResponse c1Header).header.length ≠
      headerSize + (versionMismatchResponse c1Header).query.utf8ByteSize +
        (versionMismatchResponse c1Header).body.byteSize := by
  decide

/-- Claim C2: for every request whose header has valid magic but version ≠ 1,
the worker sends exactly one response — the short-circuit frame with error
code `version_mismatch` and body "Version mismatch" — and then closes the
connection; the notify flag (a field of `h`, universally quantified) plays no
role. -/
theorem version_mismatch_single_response_then_close (h : Header) (queryOk : Bool)
    (q : String) (bodyOk : Bool) (b : Bytes)
    (hspec : h.spec = 0x1507) (hver : h.version ≠ 1) :
    handle_client_step (.frame h queryOk q bodyOk b) =
      ⟨none, some (versionMismatchResponse h), true⟩ ∧
    (versionMismatchResponse h).header.ec = .version_mismatch ∧
    (versionMismatchResponse h).body = .text "Version mismatch" := by
  unfold handle_client_step
  simp [hspec, hver, versionMismatchResponse]

/-- Witness for C2 at a concrete version-2 request with the notify flag set. -/
theorem version_mismatch_single_response_then_close_witness :
    ({ version := 2, notify := 1 } : Header).spec = 0x1507 ∧
    ({ version := 2, notify := 1 } : Header).version ≠ 1 ∧
    (handle_client_step (.frame { version := 2, notify := 1 } true "" true (.text "")) =
      ⟨none, some (versionMismatchResponse { version := 2, notify := 1 }), true⟩ ∧
    (versionMismatchResponse { version := 2, notify := 1 }).header.ec = .version_mismatch ∧
    (versionMismatchResponse { version := 2, notify := 1 }).body = .text "Version mismatch") :=
  ⟨by decide, by decide,
    version_mismatch_single_response_then_close { version := 2, notify := 1 } true "" true
      (.text "") (by decide) (by decide)⟩

/-- Claim C5: a request whose query strips to a name outside
add/multiply/divide/echo/status gets error code `method_not_found`, body
"Method not found: <stripped name>", and format tag 3 (UTF-8). -/
theorem unknown_method_not_found (req : Message)
    (hm : stripMethod req.query ∉ ["add", "multiply", "divide", "echo", "status"]) :
    (process_request req).header.ec = .method_not_found ∧
    (process_request req).body = .text ("Method not found: " ++ stripMethod req.query) ∧
    (process_request req).header.body_format = 3 := by
  simp only [List.mem_cons, List.not_mem_nil, or_false, not_or] at hm
  obtain ⟨h1, h2, h3, h4, h5⟩ := hm
  unfold process_request
  simp [h1, h2, h3, h4, h5]

/-- Witness for C5 at query "/frobnicate". -/
theorem unknown_method_not_found_witness :
    stripMethod ({ query := "/frobnicate" } : Message).query ∉
      ["add", "multiply", "divide", "echo", "status"] ∧
    ((process_request { query := "/frobnicate" }).header.ec = .method_not_found ∧
    (process_request { query := "/frobnicate" }).body =
      .text ("Method not found: " ++ stripMethod ({ query := "/frobnicate" } : Message).query) ∧
    (process_request { query := "/frobnicate" }).header.body_format = 3) :=
  ⟨by decide, unknown_method_not_found { query := "/frobnicate" } (by decide)⟩

/-- Claim C6: a valid-magic, version-1 request with the notify flag set is
fully dispatched — `process_request` runs, which is what `dispatched = some …`
records — but nothing is written (`sent = none`) and the worker loops back on
the same open connection (`closes = false`). -/
theorem notify_dispatched_but_suppressed (h : Header) (q : String) (b : Bytes)
    (hspec : h.spec = 0x1507) (hver : h.version = 1) (hn : h.notify ≠ 0) :
    handle_client_step (.frame h true q true b) =
      ⟨some (process_request (requestOf h q b)), none, false⟩ := by
  unfold handle_client_step
  simp [hspec, hver, hn]

/-- Witness for C6 at a concrete notify add-request. -/
theorem notify_dispatched_but_suppressed_witness :
    ({ notify := 1, query_length := 4, body_length := 1, body_format := 2 } : Header).notify ≠ 0 ∧
    handle_client_step (.frame { notify := 1, query_length := 4, body_length := 1, body_format := 2 }
        true "/add" true (.jsonD [("a", 2), ("b", 3)])) =
      ⟨some (process_request (requestOf
          { notify := 1, query_length := 4, body_length := 1, body_format := 2 }
          "/add" (.jsonD [("a", 2), ("b", 3)]))), none, false⟩ :=
  ⟨by decide,
    notify_dispatched_but_suppressed
      { notify := 1, query_length := 4, body_length := 1, body_format := 2 }
      "/add" (.jsonD [("a", 2), ("b", 3)]) (by decide) (by decide) (by decide)⟩

/-- Claim C7: on every transport-fatal condition — connection closed at the
header read, a short header read, bad magic, or a short query/body read — the
worker writes no response (`sent = none`), never dispatches, and tears the
connection down (`closes = true`); `handle_client_step` is a total function,
so no input makes the worker crash. -/
theorem transport_fatal_no_response_close (h : Header) (queryOk : Bool) (q : String)
    (bodyOk : Bool) (b : Bytes) :
    handle_client_step .closed = ⟨none, none, true⟩ ∧
    handle_client_step .shortHeader = ⟨none, none, true⟩ ∧
    (h.spec ≠ 0x1507 → handle_client_step (.frame h queryOk q bodyOk b) = ⟨none, none, true⟩) ∧
    (h.spec = 0x1507 → h.version = 1 → 0 < h.query_length → queryOk = false →
      handle_client_step (.frame h queryOk q bodyOk b) = ⟨none, none, true⟩) ∧
    (h.spec = 0x1507 → h.version = 1 → (0 < h.query_length → queryOk = true) →
      0 < h.body_length → bodyOk = false →
      handle_client_step (.frame h queryOk q bodyOk b) = ⟨none, none, true⟩) := by
  refine ⟨rfl, rfl, ?_, ?_, ?_⟩
  · intro hbad
    unfold handle_client_step
    simp [hbad]
  · intro hspec hver hql hqf
    unfold handle_client_step
    simp [hspec, hver, hql, hqf]
  · intro hspec hver hqok hbl hbf
    have hq : ¬(0 < h.query_length ∧ queryOk = false) := by
      rintro ⟨hgt, hf⟩
      simp [hqok hgt] at hf
    unfold handle_client_step
    simp [hspec, hver, hq, hbl, hbf]

/-- Witness for C7: bad magic, a short query read, and a short body read, each
at a concrete input. -/
theorem transport_fatal_no_response_close_witness :
    (({ spec := 0 } : Header).spec ≠ 0x1507 ∧
      handle_client_step (.frame { spec := 0 } true "" true (.text "")) = ⟨none, none, true⟩) ∧
    (0 < ({ query_length := 1 } : Header).query_length ∧
      handle_client_step (.frame { query_length := 1 } false "" true (.text "")) =
        ⟨none, none, true⟩) ∧
    (0 < ({ body_length := 1 } : Header).body_length ∧
      handle_client_step (.frame { body_length := 1 } true "" false (.text "")) =
        ⟨none, none, true⟩) :=
  ⟨⟨by decide,
      (transport_fatal_no_response_close { spec := 0 } true "" true (.text "")).2.2.1 (by decide)⟩,
    ⟨by decide,
      (transport_fatal_no_response_close { query_length := 1 } false "" true
          (.text "")).2.2.2.1 (by decide) (by decide) (by decide) (by decide)⟩,
    ⟨by decide,
      (transport_fatal_no_response_close { body_length := 1 } true "" false
          (.text "")).2.2.2.2 (by decide) (by decide) (by decide) (by decide) (by decide)⟩⟩

/-- Claim C9: slash stripping removes at most one leading slash, and only when
present: a query "add" is dispatched exactly like "/add" (same error code,
body, and format tag for every header and body), while "//add" strips to
"/add", matches no method, and yields `method_not_found` with name "/add". -/
theorem slash_stripping_single (h : Header) (b : Bytes) :
    ((process_request { header := h, query := "add", body := b }).header.ec =
        (process_request { header := h, query := "/add", body := b }).header.ec ∧
      (process_request { header := h, query := "add", body := b }).body =
        (process_request { header := h, query := "/add", body := b }).body ∧
      (process_request { header := h, query := "add", body := b }).header.body_format =
        (process_request { header := h, query := "/add", body := b }).header.body_format) ∧
    ((process_request { header := h, query := "//add", body := b }).header.ec =
        .method_not_found ∧
      (process_request { header := h, query := "//add", body := b }).body =
        .text ("Method not found: " ++ "/add")) := by
  have e1 : stripMethod "add" = "add" := by decide
  have e2 : stripMethod "/add" = "add" := by decide
  have e3 : stripMethod "//add" = "/add" := by decide
  unfold process_request
  simp only [e1, e2, e3, decode_paramsD]
  refine ⟨?_, by simp⟩
  cases hdec : (if h.body_format = 1 then read_beveD b else
      if h.body_format = 2 then read_jsonD b else none) with
  | none => simp [hdec]
  | some params =>
    simp only [hdec]
    simp [encode_responseD]
    constructor
    · split <;> simp
    constructor
    · split <;> simp
    · split <;> simp

/-- Claim C10: every instantiation of `encode_response` stamps format tag 1
exactly when asked for BEVE and tag 2 (JSON) for every other requested format,
so a successful request carrying tag 0 (raw) or 3 (UTF-8) — e.g. a status
request, whose handler cannot fail — receives a JSON-encoded response tagged
2 rather than one in its own format. -/
theorem encoder_emits_beve_or_json_only (dataD : ParamsD) (dataS : ParamsS)
    (dataV : StatusMap) (resp : Message) (format : Nat) (h : Header) :
    ((encode_responseD dataD resp format).header.body_format =
        if format = 1 then 1 else 2) ∧
    ((encode_responseD dataD resp format).body =
        if format = 1 then .beveD dataD else .jsonD dataD) ∧
    ((encode_responseS dataS resp format).header.body_format =
        if format = 1 then 1 else 2) ∧
    ((encode_responseStatus dataV resp format).header.body_format =
        if format = 1 then 1 else 2) ∧
    ((process_request { header := { h with body_format := 3 }, query := "/status" }).header.ec =
        .ok ∧
      (process_request { header := { h with body_format := 3 }, query := "/status" }).body =
        .jsonStatus math_service.status ∧
      (process_request { header := { h with body_format := 3 }, query := "/status" }).header.body_format = 2) ∧
    (process_request { header := { h with body_format := 0 }, query := "/status" }).header.body_format = 2 := by
  have e1 : stripMethod "/status" = "status" := by decide
  refine ⟨?_, ?_, ?_, ?_, ?_, ?_⟩
  · unfold encode_responseD
    split <;> simp
  · unfold encode_responseD
    split <;> simp
  · unfold encode_responseS
    split <;> simp
  · unfold encode_responseStatus
    split <;> simp
  · unfold process_request
    simp [e1, encode_responseStatus]
  · unfold process_request
    simp [e1, encode_responseStatus]

/-- Claim C3: whenever a handler taking a decodable parameter map succeeds —
add/multiply/echo on any decoded map, divide on a decoded map with nonzero
denominator — the response keeps the default error code `ok` and its body is
encoded with the same format tag the request specified (tag 1 re-encodes as
BEVE, tag 2 as JSON; decode success forces the tag to be 1 or 2, see
`decode_paramsD_format`); for add the encoded result is `a + b`. -/
theorem handler_success_ok_and_format_echo (req : Message) :
    (∀ params : ParamsD, stripMethod req.query = "add" → decode_paramsD req = some params →
      (process_request req).header.ec = .ok ∧
      (process_request req).header.body_format = req.header.body_format ∧
      (process_request req).body =
        (if req.header.body_format = 1 then
          Bytes.beveD [("result", mapGetD params "a" + mapGetD params "b")]
        else Bytes.jsonD [("result", mapGetD params "a" + mapGetD params "b")])) ∧
    (∀ params : ParamsD, stripMethod req.query = "multiply" → decode_paramsD req = some params →
      (process_request req).header.ec = .ok ∧
      (process_request req).header.body_format = req.header.body_format ∧
      (process_request req).body =
        (if req.header.body_format = 1 then
          Bytes.beveD [("result", mapGetD params "x" * mapGetD params "y")]
        else Bytes.jsonD [("result", mapGetD params "x" * mapGetD params "y")])) ∧
    (∀ params : ParamsD, stripMethod req.query = "divide" → decode_paramsD req = some params →
      mapGetD params "denominator" ≠ 0 →
      (process_request req).header.ec = .ok ∧
      (process_request req).header.body_format = req.header.body_format ∧
      (process_request req).body =
        (if req.header.body_format = 1 then
          Bytes.beveD [("result", mapGetD params "numerator" / mapGetD params "denominator")]
        else Bytes.jsonD [("result", mapGetD params "numerator" / mapGetD params "denominator")])) ∧
    (∀ params : ParamsS, stripMethod req.query = "echo" → decode_paramsS req = some params →
      (process_request req).header.ec = .ok ∧
      (process_request req).header.body_format = req.header.body_format ∧
      (process_request req).body =
        (if req.header.body_format = 1 then
          Bytes.beveS [("result", "Echo: " ++ mapGetS params "message")]
        else Bytes.jsonS [("result", "Echo: " ++ mapGetS params "message")])) := by
  refine ⟨?_, ?_, ?_, ?_⟩
  · intro params hm hd
    rcases decode_paramsD_format req params hd with h1 | h1 <;>
      · unfold process_request
        simp [hm, hd, h1, encode_responseD, math_service.add]
  · intro params hm hd
    rcases decode_paramsD_format req params hd with h1 | h1 <;>
      · unfold process_request
        simp [hm, hd, h1, encode_responseD, math_service.multiply]
  · intro params hm hd hden
    rcases decode_paramsD_format req params hd with h1 | h1 <;>
      · unfold process_request
        simp [hm, hd, h1, encode_responseD, math_service.divide, hden]
  · intro params hm hd
    rcases decode_paramsS_format req params hd with h1 | h1 <;>
      · unfold process_request
        simp [hm, hd, h1, encode_responseS, math_service.echo]

/-- The concrete request of the C3 witness: a JSON add-request. -/
def c3Req : Message :=
  { header := { body_format := 2, query_length := 4, body_length := 1 }
    query := "/add"
    body := .jsonD [("a", 2), ("b", 3)] }

/-- Witness for C3 at a concrete JSON add-request with a = 2, b = 3. -/
theorem handler_success_ok_and_format_echo_witness :
    stripMethod c3Req.query = "add" ∧
    decode_paramsD c3Req = some [("a", 2), ("b", 3)] ∧
    ((process_request c3Req).header.ec = .ok ∧
      (process_request c3Req).header.body_format = c3Req.header.body_format ∧
      (process_request c3Req).body =
        (if c3Req.header.body_format = 1 then
          Bytes.beveD [("result", mapGetD [("a", 2), ("b", 3)] "a" + mapGetD [("a", 2), ("b", 3)] "b")]
        else Bytes.jsonD [("result", mapGetD [("a", 2), ("b", 3)] "a" + mapGetD [("a", 2), ("b", 3)] "b")])) :=
  ⟨by decide, by decide,
    (handler_success_ok_and_format_echo c3Req).1 [("a", 2), ("b", 3)] (by decide) (by decide)⟩

/-- The header of the C4 witness request. -/
def c4Header : Header := { query_length := 7, body_length := 1, body_format := 2 }

/-- Claim C4: a decodable divide request whose decoded denominator equals 0
produces, whatever the numerator, a response with error code `invalid_body`,
body text "Division by zero", and format tag 3 (UTF-8); the worker does not
close the connection (`closes = false`), so subsequent requests are served. -/
theorem divide_by_zero_invalid_body_connection_open (h : Header) (q : String) (b : Bytes)
    (params : ParamsD)
    (hspec : h.spec = 0x1507) (hver : h.version = 1) (hn : h.notify = 0)
    (hm : stripMethod (requestOf h q b).query = "divide")
    (hd : decode_paramsD (requestOf h q b) = some params)
    (hden : mapGetD params "denominator" = 0) :
    handle_client_step (.frame h true q true b) =
      ⟨some (process_request (requestOf h q b)),
        some (process_request (requestOf h q b)), false⟩ ∧
    (process_request (requestOf h q b)).header.ec = .invalid_body ∧
    (process_request (requestOf h q b)).body = .text "Division by zero" ∧
    (process_request (requestOf h q b)).header.body_format = 3 := by
  refine ⟨?_, ?_, ?_, ?_⟩
  · unfold handle_client_step
    simp [hspec, hver, hn]
  all_goals
    unfold process_request
    simp [hm, hd, math_service.divide, hden]

/-- Witness for C4 at a concrete JSON divide-request with numerator 5 and
denominator 0. -/
theorem divide_by_zero_invalid_body_connection_open_witness :
    c4Header.spec = 0x1507 ∧ c4Header.notify = 0 ∧
    stripMethod (requestOf c4Header "/divide"
      (.jsonD [("numerator", 5), ("denominator", 0)])).query = "divide" ∧
    decode_paramsD (requestOf c4Header "/divide"
      (.jsonD [("numerator", 5), ("denominator", 0)])) =
        some [("numerator", 5), ("denominator", 0)] ∧
    mapGetD [("numerator", 5), ("denominator", 0)] "denominator" = 0 ∧
    (handle_client_step (.frame c4Header true "/divide" true
        (.jsonD [("numerator", 5), ("denominator", 0)])) =
      ⟨some (process_request (requestOf c4Header "/divide"
          (.jsonD [("numerator", 5), ("denominator", 0)]))),
        some (process_request (requestOf c4Header "/divide"
          (.jsonD [("numerator", 5), ("denominator", 0)]))), false⟩ ∧
    (process_request (requestOf c4Header "/divide"
        (.jsonD [("numerator", 5), ("denominator", 0)]))).header.ec = .invalid_body ∧
    (process_request (requestOf c4Header "/divide"
        (.jsonD [("numerator", 5), ("denominator", 0)]))).body = .text "Division by zero" ∧
    (process_request (requestOf c4Header "/divide"
        (.jsonD [("numerator", 5), ("denominator", 0)]))).header.body_format = 3) :=
  ⟨by decide, by decide, by decide, by decide, by decide,
    divide_by_zero_invalid_body_connection_open c4Header "/divide"
      (.jsonD [("numerator", 5), ("denominator", 0)]) [("numerator", 5), ("denominator", 0)]
      (by decide) (by decide) (by decide) (by decide) (by decide) (by decide)⟩

/-- Claim C8: looking up an absent key in a successfully decoded parameter map
does not fail and yields the double default 0 (the `std::map::operator[]`
semantics); in particular an add request whose decoded map lacks "a" still
produces a result, with 0 substituted for the missing operand (so the encoded
result is `0 + b = b`). -/
theorem missing_key_defaults_to_zero (params : ParamsD) (k : String) (req : Message) :
    (k ∉ params.map Prod.fst → mapGetD params k = 0) ∧
    (∀ p : ParamsD, stripMethod req.query = "add" → decode_paramsD req = some p →
      "a" ∉ p.map Prod.fst →
      (process_request req).header.ec = .ok ∧
      (process_request req).body =
        (if req.header.body_format = 1 then Bytes.beveD [("result", mapGetD p "b")]
        else Bytes.jsonD [("result", mapGetD p "b")])) := by
  constructor
  · intro hk
    unfold mapGetD
    rw [lookup_eq_none_of_not_mem_keys hk]
    rfl
  · intro p hm hd ha
    have h0 : mapGetD p "a" = 0 := by
      unfold mapGetD
      rw [lookup_eq_none_of_not_mem_keys ha]
      rfl
    rcases decode_paramsD_format req p hd with h1 | h1 <;>
      · unfold process_request
        simp [hm, hd, h1, encode_responseD, math_service.add, h0]

/-- The concrete request of the C8 witness: a JSON add-request whose parameter
map lacks the key "a". -/
def c8Req : Message :=
  { header := { body_format := 2, query_length := 4, body_length := 1 }
    query := "/add"
    body := .jsonD [("b", 7)] }

/-- Witness for C8 at a concrete add-request whose decoded map has only
"b" = 7. -/
theorem missing_key_defaults_to_zero_witness :
    "a" ∉ ([("b", 7)] : ParamsD).map Prod.fst ∧
    mapGetD [("b", 7)] "a" = 0 ∧
    stripMethod c8Req.query = "add" ∧
    decode_paramsD c8Req = some [("b", 7)] ∧
    ((process_request c8Req).header.ec = .ok ∧
      (process_request c8Req).body =
        (if c8Req.header.body_format = 1 then Bytes.beveD [("result", mapGetD [("b", 7)] "b")]
        else Bytes.jsonD [("result", mapGetD [("b", 7)] "b")])) :=
  ⟨by decide, (missing_key_defaults_to_zero [("b", 7)] "a" c8Req).1 (by decide),
    by decide, by decide,
    (missing_key_defaults_to_zero [("b", 7)] "a" c8Req).2 [("b", 7)]
      (by decide) (by decide) (by decide)⟩

end REPE
